import Mathlib

/-!
Verification of the Eva Calor climate adapter
(`homeassistant/components/evacalor/climate.py`).

The adapter wraps a vendor device handle (pyevacalor).  Temperatures are
Python floats; every claim about them is restricted to values where the
arithmetic (`* 2`, `/ 2` on multiples of 0.5) is exact in binary floating
point, so they are embedded as rationals.  Vendor calls that can raise are
embedded by passing the vendor outcome (`Except EvaCalorError _`) as an
explicit argument, and the `try`/`except` blocks become `match`es on it.
Commands record the vendor calls they issue as an explicit trace so that
"invokes turn-off exactly once" and "no vendor call at all" are statable.
-/

namespace EvaCalor

/-- Vendor SDK error hierarchy from pyevacalor: `UnauthorizedError` and
`ConnectionError` are subclasses of `Error` (imported as `EvaCalorError`),
so a handler for `EvaCalorError` catches all three. -/
inductive EvaCalorError where
  | unauthorizedError
  | connectionError
  | otherError (msg : String)
deriving Repr, DecidableEq

/-- Modelled from the spec: the two composite operating modes exposed by the
host platform's climate constants (`homeassistant.components.climate.const`,
not under src/); the spec says the options are exactly \x7bheat, off\x7d. -/
def HVAC_MODE_HEAT : String := "heat"

/-- Modelled from the spec: the "off" composite operating mode constant. -/
def HVAC_MODE_OFF : String := "off"

/-- Modelled from the spec: running-state classification value "heat"
(host constant `CURRENT_HVAC_HEAT`, not under src/). -/
def CURRENT_HVAC_HEAT : String := "heat"

/-- Modelled from the spec: running-state classification value "idle"
(host constant `CURRENT_HVAC_IDLE`, not under src/). -/
def CURRENT_HVAC_IDLE : String := "idle"

/-- Modelled from the spec: running-state classification value "off"
(host constant `CURRENT_HVAC_OFF`, not under src/). -/
def CURRENT_HVAC_OFF : String := "off"

/-- Modelled from the spec: the five enumerated fan levels `FAN_1 .. FAN_5`
come from the integration's `const.py`, which is not under src/; the spec
says only "the fixed enumerated set of five fan levels ... in fixed order",
so they are modelled as five distinct levels 1..5. -/
def FAN_1 : Int := 1

/-- Modelled from the spec: second fan level. -/
def FAN_2 : Int := 2

/-- Modelled from the spec: third fan level. -/
def FAN_3 : Int := 3

/-- Modelled from the spec: fourth fan level. -/
def FAN_4 : Int := 4

/-- Modelled from the spec: fifth fan level. -/
def FAN_5 : Int := 5

/-- `FAN_MODES` list from climate.py lines 45-51. -/
def FAN_MODES : List Int := [FAN_1, FAN_2, FAN_3, FAN_4, FAN_5]

/-- `CURRENT_HVAC_MAP_EFESTO_HEAT` dict from climate.py lines 53-58,
embedded as an association list. -/
def CURRENT_HVAC_MAP_EFESTO_HEAT : List (String × String) :=
  [("ON", CURRENT_HVAC_HEAT),
   ("CLEANING FIRE-POT", CURRENT_HVAC_HEAT),
   ("FLAME LIGHT", CURRENT_HVAC_HEAT),
   ("OFF", CURRENT_HVAC_OFF)]

/-- The vendor device handle's readable fields, as used by climate.py
(`device.status`, `device.status_translated`, `device.air_temperature`,
`device.set_air_temperature`, `device.gas_temperature`, `device.real_power`,
`device.set_power`, `device.id_device`, `device.name`, `device.name_product`,
`device.min_temp`, `device.max_temp`). -/
structure Device where
  id_device : String
  name : String
  name_product : String
  status : Int
  status_translated : String
  air_temperature : ℚ
  set_air_temperature : ℚ
  gas_temperature : ℚ
  real_power : Int
  set_power : Int
  min_temp : ℚ
  max_temp : ℚ
deriving Repr, DecidableEq

/-- The adapter's state: the held vendor handle reference plus the cached
snapshot fields initialised in `EvaCalorHeatingDevice.__init__`
(climate.py lines 94-106). -/
structure Adapter where
  device : Device
  device_id : String
  on_flag : Bool
  device_status : Option Int
  human_device_status : Option String
  current_temperature_f : Option ℚ
  target_temperature_f : Option ℚ
  smoke_temperature : Option ℚ
  real_power : Option Int
  current_power : Option Int
  name : String
deriving Repr, DecidableEq

/-- One vendor call issued by a command path: `device.turn_on()`,
`device.turn_off()`, assignment to `device.set_air_temperature`, or
assignment to `device.set_power`. -/
inductive VendorCall where
  | turnOn
  | turnOff
  | setAirTemperature (value : ℚ)
  | setPower (value : Int)
deriving Repr, DecidableEq

/-- Result of a command method: the adapter state after the call, the trace
of vendor calls issued, and the exception escaping to the caller (if any). -/
structure CommandResult where
  adapter : Adapter
  calls : List VendorCall
  raised : Option EvaCalorError
deriving Repr, DecidableEq

namespace EvaCalorHeatingDevice

/-- `EvaCalorHeatingDevice.__init__` (climate.py lines 94-106): store the
handle, copy id and name, set the on-flag False and every snapshot field
to None. -/
def init (device : Device) : Adapter :=
  { device := device
    device_id := device.id_device
    on_flag := false
    device_status := none
    human_device_status := none
    current_temperature_f := none
    target_temperature_f := none
    smoke_temperature := none
    real_power := none
    current_power := none
    name := device.name }

/-- `current_temperature` property (climate.py lines 168-171). -/
def current_temperature (a : Adapter) : Option ℚ :=
  a.current_temperature_f

/-- `target_temperature` property (climate.py lines 173-176). -/
def target_temperature (a : Adapter) : Option ℚ :=
  a.target_temperature_f

/-- `hvac_mode` property (climate.py lines 178-186). -/
def hvac_mode (a : Adapter) : String :=
  if a.on_flag then HVAC_MODE_HEAT else HVAC_MODE_OFF

/-- `hvac_modes` property (climate.py lines 188-194). -/
def hvac_modes : List String :=
  [HVAC_MODE_HEAT, HVAC_MODE_OFF]

/-- `fan_mode` property (climate.py lines 196-201): the cached power if it
is a member of `FAN_MODES`, else `FAN_1`.  In Python `None in FAN_MODES`
is False, so a None cache also yields `FAN_1`. -/
def fan_mode (a : Adapter) : Int :=
  match a.current_power with
  | some p => if p ∈ FAN_MODES then p else FAN_1
  | none => FAN_1

/-- `fan_modes` property (climate.py lines 203-206). -/
def fan_modes : List Int :=
  FAN_MODES

/-- `hvac_action` property (climate.py lines 208-216): dict membership test
then lookup, falling back to `CURRENT_HVAC_IDLE`; `None` is not a key. -/
def hvac_action (a : Adapter) : String :=
  match a.human_device_status with
  | some s =>
      match CURRENT_HVAC_MAP_EFESTO_HEAT.lookup s with
      | some v => v
      | none => CURRENT_HVAC_IDLE
  | none => CURRENT_HVAC_IDLE

/-- `turn_off` (climate.py lines 218-223): call `device.turn_off()`, catch
and log any `EvaCalorError`.  `res` is the vendor call's outcome. -/
def turn_off (a : Adapter) (res : Except EvaCalorError Unit) : CommandResult :=
  match res with
  | .ok _ => { adapter := a, calls := [.turnOff], raised := none }
  | .error _ => { adapter := a, calls := [.turnOff], raised := none }

/-- `turn_on` (climate.py lines 225-230): call `device.turn_on()`, catch
and log any `EvaCalorError`. -/
def turn_on (a : Adapter) (res : Except EvaCalorError Unit) : CommandResult :=
  match res with
  | .ok _ => { adapter := a, calls := [.turnOn], raised := none }
  | .error _ => { adapter := a, calls := [.turnOn], raised := none }

/-- `set_temperature` (climate.py lines 232-241): `kwargs.get(ATTR_TEMPERATURE)`
is the optional `temperature`; return at once when it is None, else assign
`temperature * 2` to `device.set_air_temperature`, catching any
`EvaCalorError`. -/
def set_temperature (a : Adapter) (temperature : Option ℚ)
    (res : Except EvaCalorError Unit) : CommandResult :=
  match temperature with
  | none => { adapter := a, calls := [], raised := none }
  | some t =>
      match res with
      | .ok _ => { adapter := a, calls := [.setAirTemperature (t * 2)], raised := none }
      | .error _ => { adapter := a, calls := [.setAirTemperature (t * 2)], raised := none }

/-- `set_fan_mode` (climate.py lines 243-251): return at once when
`fan_mode` is None, else assign it to `device.set_power`, catching any
`EvaCalorError`. -/
def set_fan_mode (a : Adapter) (fm : Option Int)
    (res : Except EvaCalorError Unit) : CommandResult :=
  match fm with
  | none => { adapter := a, calls := [], raised := none }
  | some m =>
      match res with
      | .ok _ => { adapter := a, calls := [.setPower m], raised := none }
      | .error _ => { adapter := a, calls := [.setPower m], raised := none }

/-- `set_hvac_mode` (climate.py lines 253-258): dispatch to `turn_off` for
`HVAC_MODE_OFF`, to `turn_on` for `HVAC_MODE_HEAT`, otherwise do nothing. -/
def set_hvac_mode (a : Adapter) (mode : String)
    (res : Except EvaCalorError Unit) : CommandResult :=
  if mode = HVAC_MODE_OFF then turn_off a res
  else if mode = HVAC_MODE_HEAT then turn_on a res
  else { adapter := a, calls := [], raised := none }

/-- `update` (climate.py lines 260-287): `device.update()` refreshes the
handle or raises; on any of the three errors log and return False with
nothing mutated; on success overwrite every snapshot field from the
refreshed handle (`float(...)` on rationals is the identity;
`set_air_temperature` is halved), derive the on-flag from the status code,
and return True.  `res` carries the refreshed handle on success. -/
def update (a : Adapter) (res : Except EvaCalorError Device) : Adapter × Bool :=
  match res with
  | .error .unauthorizedError => (a, false)
  | .error .connectionError => (a, false)
  | .error (.otherError _) => (a, false)
  | .ok d =>
      let a1 : Adapter :=
        { a with
          device := d
          device_status := some d.status
          current_temperature_f := some d.air_temperature
          target_temperature_f := some (d.set_air_temperature / 2)
          human_device_status := some d.status_translated
          smoke_temperature := some d.gas_temperature
          real_power := some d.real_power
          current_power := some d.set_power }
      let a2 : Adapter :=
        if a1.device_status = some 0 then { a1 with on_flag := false }
        else { a1 with on_flag := true }
      (a2, true)

end EvaCalorHeatingDevice

/-- One call to the host's `async_add_entities`: the entities added and the
`update_before_add` flag requesting an immediate poll. -/
structure AddEntitiesCall where
  entities : List Adapter
  update_before_add : Bool
deriving Repr, DecidableEq

/-- Result of `async_setup_entry`: the returned success flag and the trace
of `async_add_entities` calls. -/
structure SetupResult where
  success : Bool
  addCalls : List AddEntitiesCall
deriving Repr, DecidableEq

/-- `async_setup_entry` (climate.py lines 65-88): construct the vendor
client and take `eva.devices[0]`; on any of the three vendor errors log and
return False with no entity registered; on success register exactly one
`EvaCalorHeatingDevice` with `update_before_add = True` and return True.
`res` is the outcome of client construction plus device retrieval. -/
def async_setup_entry (res : Except EvaCalorError Device) : SetupResult :=
  match res with
  | .error .unauthorizedError => { success := false, addCalls := [] }
  | .error .connectionError => { success := false, addCalls := [] }
  | .error (.otherError _) => { success := false, addCalls := [] }
  | .ok d =>
      { success := true
        addCalls := [{ entities := [EvaCalorHeatingDevice.init d],
                       update_before_add := true }] }

/-- A concrete vendor device used by the witnesses. -/
def sampleDevice : Device :=
  { id_device := "dev-1"
    name := "Stove"
    name_product := "Eva Calor"
    status := 0
    status_translated := "OFF"
    air_temperature := 20
    set_air_temperature := 40
    gas_temperature := 80
    real_power := 2
    set_power := 3
    min_temp := 15
    max_temp := 30 }

end EvaCalor

namespace EvaCalor

open EvaCalorHeatingDevice

/-- Claim C1: for every temperature `t` that is a multiple of 0.5,
`set_temperature` with `t` writes `t * 2` to the vendor handle, and a
successful update that reads back that raw doubled value unchanged makes
the `target_temperature` getter return exactly `t`. -/
theorem C1_target_temperature_roundtrip (a b : Adapter) (t : ℚ)
    (res : Except EvaCalorError Unit) (d : Device)
    (hhalf : ∃ n : ℤ, t = (n : ℚ) / 2)
    (hread : d.set_air_temperature = t * 2) :
    (set_temperature a (some t) res).calls = [VendorCall.setAirTemperature (t * 2)] ∧
    (update b (Except.ok d)).2 = true ∧
    target_temperature (update b (Except.ok d)).1 = some t := by
  refine ⟨by cases res <;> rfl, by simp [update], ?_⟩
  have h1 : target_temperature (update b (Except.ok d)).1
      = some (d.set_air_temperature / 2) := by
    simp only [update, target_temperature]
    split <;> rfl
  rw [h1, hread, mul_div_cancel_right₀ t (two_ne_zero)]

/-- Witness for C1 at the concrete half-degree value t = 21.5. -/
theorem C1_witness :
    (set_temperature (init sampleDevice) (some ((43 : ℚ) / 2)) (Except.ok ())).calls
      = [VendorCall.setAirTemperature (((43 : ℚ) / 2) * 2)] ∧
    (update (init sampleDevice)
      (Except.ok { sampleDevice with set_air_temperature := 43 })).2 = true ∧
    target_temperature (update (init sampleDevice)
      (Except.ok { sampleDevice with set_air_temperature := 43 })).1
      = some ((43 : ℚ) / 2) :=
  C1_target_temperature_roundtrip (init sampleDevice) (init sampleDevice)
    ((43 : ℚ) / 2) (Except.ok ()) { sampleDevice with set_air_temperature := 43 }
    ⟨43, by norm_num⟩ (by norm_num [sampleDevice])

/-- Claim C2: after every successful update the on-flag is exactly the
test "status code nonzero", and `hvac_mode` reports "off" when the polled
status code is 0 and "heat" otherwise. -/
theorem C2_status_drives_hvac_mode (a : Adapter) (d : Device) :
    (update a (Except.ok d)).2 = true ∧
    ((update a (Except.ok d)).1).on_flag = decide (d.status ≠ 0) ∧
    hvac_mode (update a (Except.ok d)).1
      = (if d.status = 0 then HVAC_MODE_OFF else HVAC_MODE_HEAT) := by
  by_cases h : d.status = 0 <;>
    simp [update, hvac_mode, h]

/-- Claim C3: when the vendor refresh raises any of the three vendor
errors, `update` returns False and the whole adapter state, every snapshot
field included, is exactly what it was before the call. -/
theorem C3_update_error_preserves_snapshot (a : Adapter) (e : EvaCalorError) :
    update a (Except.error e) = (a, false) := by
  cases e <;> rfl

/-- Claim C4: `hvac_action` classifies "ON", "CLEANING FIRE-POT" and
"FLAME LIGHT" as heat, "OFF" as off, and every other cached status string
(including the None of a fresh adapter) as idle, totally. -/
theorem C4_hvac_action_classification (a : Adapter) :
    hvac_action { a with human_device_status := some "ON" } = CURRENT_HVAC_HEAT ∧
    hvac_action { a with human_device_status := some "CLEANING FIRE-POT" } = CURRENT_HVAC_HEAT ∧
    hvac_action { a with human_device_status := some "FLAME LIGHT" } = CURRENT_HVAC_HEAT ∧
    hvac_action { a with human_device_status := some "OFF" } = CURRENT_HVAC_OFF ∧
    hvac_action { a with human_device_status := none } = CURRENT_HVAC_IDLE ∧
    (∀ s : String, s ∉ ["ON", "CLEANING FIRE-POT", "FLAME LIGHT", "OFF"] →
      hvac_action { a with human_device_status := some s } = CURRENT_HVAC_IDLE) := by
  refine ⟨rfl, rfl, rfl, rfl, rfl, ?_⟩
  intro s hs
  simp only [List.mem_cons, List.not_mem_nil, or_false, not_or] at hs
  obtain ⟨h1, h2, h3, h4⟩ := hs
  have b1 : (s == "ON") = false := beq_eq_false_iff_ne.mpr h1
  have b2 : (s == "CLEANING FIRE-POT") = false := beq_eq_false_iff_ne.mpr h2
  have b3 : (s == "FLAME LIGHT") = false := beq_eq_false_iff_ne.mpr h3
  have b4 : (s == "OFF") = false := beq_eq_false_iff_ne.mpr h4
  simp [hvac_action, CURRENT_HVAC_MAP_EFESTO_HEAT, List.lookup, b1, b2, b3, b4]

/-- Witness for C4 at the concrete unrecognized status "STANDBY". -/
theorem C4_witness :
    hvac_action { init sampleDevice with human_device_status := some "STANDBY" }
      = CURRENT_HVAC_IDLE :=
  (C4_hvac_action_classification (init sampleDevice)).2.2.2.2.2 "STANDBY" (by decide)

/-- Claim C5: `fan_mode` returns the cached power value when it is one of
the five enumerated fan levels and `FAN_1` otherwise (also for a None
cache), and `fan_modes` is exactly the five levels in fixed order. -/
theorem C5_fan_mode_total (a : Adapter) (p : Int) :
    (p ∈ FAN_MODES → fan_mode { a with current_power := some p } = p) ∧
    (p ∉ FAN_MODES → fan_mode { a with current_power := some p } = FAN_1) ∧
    fan_mode { a with current_power := none } = FAN_1 ∧
    fan_modes = [FAN_1, FAN_2, FAN_3, FAN_4, FAN_5] := by
  refine ⟨fun h => by simp [fan_mode, h], fun h => by simp [fan_mode, h], rfl, rfl⟩

/-- Witness for C5 at the in-range level 3 of a concrete adapter. -/
theorem C5_witness :
    fan_mode { init sampleDevice with current_power := some 3 } = 3 :=
  (C5_fan_mode_total (init sampleDevice) 3).1 (by decide)

/-- Claim C6: when client construction or device retrieval raises any of
the three vendor errors, setup returns failure and registers zero
entities; on success it returns True and registers exactly one entity with
`update_before_add` requesting an immediate poll. -/
theorem C6_setup_errors_and_success (e : EvaCalorError) (d : Device) :
    async_setup_entry (Except.error e) = { success := false, addCalls := [] } ∧
    async_setup_entry (Except.ok d) =
      { success := true
        addCalls := [{ entities := [init d], update_before_add := true }] } := by
  refine ⟨?_, rfl⟩
  cases e <;> rfl

/-- Claim C7: `set_hvac_mode` with "off" issues exactly one turn-off
vendor call, with "heat" exactly one turn-on call, and with any other
value no vendor call at all, whatever the vendor outcome. -/
theorem C7_set_hvac_mode_dispatch (a : Adapter) (res : Except EvaCalorError Unit)
    (m : String) (hm : m ≠ HVAC_MODE_OFF ∧ m ≠ HVAC_MODE_HEAT) :
    (set_hvac_mode a HVAC_MODE_OFF res).calls = [VendorCall.turnOff] ∧
    (set_hvac_mode a HVAC_MODE_HEAT res).calls = [VendorCall.turnOn] ∧
    (set_hvac_mode a m res).calls = [] := by
  refine ⟨?_, ?_, ?_⟩
  · cases res <;> rfl
  · cases res <;> rfl
  · simp [set_hvac_mode, hm.1, hm.2]

/-- Witness for C7 at the concrete unrecognized mode "auto". -/
theorem C7_witness :
    (set_hvac_mode (init sampleDevice) "auto" (Except.ok ())).calls = [] :=
  (C7_set_hvac_mode_dispatch (init sampleDevice) (Except.ok ()) "auto"
    ⟨by decide, by decide⟩).2.2

/-- Claim C8: `set_temperature` with no value makes no vendor call, with a
value writes `value * 2`; `set_fan_mode` with no value makes no vendor
call, with a value writes it raw to the power setting; neither lets a
vendor error escape to the caller. -/
theorem C8_set_paths_and_error_swallow (a : Adapter) (t : ℚ) (m : Int)
    (res : Except EvaCalorError Unit) :
    set_temperature a none res = { adapter := a, calls := [], raised := none } ∧
    (set_temperature a (some t) res).calls = [VendorCall.setAirTemperature (t * 2)] ∧
    (set_temperature a (some t) res).raised = none ∧
    set_fan_mode a none res = { adapter := a, calls := [], raised := none } ∧
    (set_fan_mode a (some m) res).calls = [VendorCall.setPower m] ∧
    (set_fan_mode a (some m) res).raised = none := by
  cases res <;> exact ⟨rfl, rfl, rfl, rfl, rfl, rfl⟩

/-- Claim C9: no command (turn on, turn off, set temperature, set fan
mode, set composite mode) changes any field of the adapter state, whether
the vendor call succeeds or raises. -/
theorem C9_commands_preserve_snapshot (a : Adapter) (res : Except EvaCalorError Unit)
    (t : Option ℚ) (fm : Option Int) (mode : String) :
    (turn_on a res).adapter = a ∧
    (turn_off a res).adapter = a ∧
    (set_temperature a t res).adapter = a ∧
    (set_fan_mode a fm res).adapter = a ∧
    (set_hvac_mode a mode res).adapter = a := by
  refine ⟨by cases res <;> rfl, by cases res <;> rfl, ?_, ?_, ?_⟩
  · cases t <;> cases res <;> rfl
  · cases fm <;> cases res <;> rfl
  · by_cases h1 : mode = HVAC_MODE_OFF
    · simp only [set_hvac_mode, if_pos h1]
      cases res <;> rfl
    · by_cases h2 : mode = HVAC_MODE_HEAT
      · simp only [set_hvac_mode, if_neg h1, if_pos h2]
        cases res <;> rfl
      · simp only [set_hvac_mode, if_neg h1, if_neg h2]

/-- Claim C10: for every adapter state `hvac_mode` is one of the two
listed modes, `fan_mode` one of the five listed levels, and `hvac_action`
one of heat, idle, off; and a freshly constructed adapter reports mode
"off", fan level `FAN_1`, action idle, and no current or target
temperature. -/
theorem C10_getter_invariants (a : Adapter) (d : Device) :
    hvac_mode a ∈ hvac_modes ∧
    fan_mode a ∈ fan_modes ∧
    (hvac_action a = CURRENT_HVAC_HEAT ∨ hvac_action a = CURRENT_HVAC_IDLE ∨
      hvac_action a = CURRENT_HVAC_OFF) ∧
    hvac_mode (init d) = HVAC_MODE_OFF ∧
    fan_mode (init d) = FAN_1 ∧
    hvac_action (init d) = CURRENT_HVAC_IDLE ∧
    current_temperature (init d) = none ∧
    target_temperature (init d) = none := by
  refine ⟨?_, ?_, ?_, rfl, rfl, rfl, rfl, rfl⟩
  · cases h : a.on_flag <;> simp [hvac_mode, hvac_modes, h]
  · rcases hp : a.current_power with _ | p
    · simp [fan_mode, fan_modes, hp, FAN_MODES]
    · by_cases hin : p ∈ FAN_MODES
      · have h : fan_mode a = p := by simp [fan_mode, hp, hin]
        rw [h, fan_modes]
        exact hin
      · have h : fan_mode a = FAN_1 := by simp [fan_mode, hp, hin]
        rw [h]
        simp [fan_modes, FAN_MODES]
  · rcases hs : a.human_device_status with _ | s
    · right; left; simp [hvac_action, hs]
    · by_cases e1 : s = "ON"
      · left; simp [hvac_action, hs, e1, CURRENT_HVAC_MAP_EFESTO_HEAT, List.lookup]
      · by_cases e2 : s = "CLEANING FIRE-POT"
        · left; simp [hvac_action, hs, e2, CURRENT_HVAC_MAP_EFESTO_HEAT, List.lookup]
        · by_cases e3 : s = "FLAME LIGHT"
          · left; simp [hvac_action, hs, e3, CURRENT_HVAC_MAP_EFESTO_HEAT, List.lookup]
          · by_cases e4 : s = "OFF"
            · right; right
              simp [hvac_action, hs, e4, CURRENT_HVAC_MAP_EFESTO_HEAT, List.lookup,
                beq_eq_false_iff_ne.mpr e1, beq_eq_false_iff_ne.mpr e2,
                beq_eq_false_iff_ne.mpr e3]
            · right; left
              simp [hvac_action, hs, CURRENT_HVAC_MAP_EFESTO_HEAT, List.lookup,
                beq_eq_false_iff_ne.mpr e1, beq_eq_false_iff_ne.mpr e2,
                beq_eq_false_iff_ne.mpr e3, beq_eq_false_iff_ne.mpr e4]

end EvaCalor
